import Mathlib

/-!
Verification of the session controller and reveal scheduler of the
GenAI_TextGame front end.

The repository contains three revisions of the `useGame` hook, embedded here
in three namespaces:

* `Staged` — the revision of `src/frontend/src/hooks/useGame.js` (first
  document) that builds staged request payloads (`initial` / `round`) and
  computes the score deterministically on the client.
* `Serial` — the revision in `src/unnamed/part_000`: guarded `chooseOption`
  that processes the backend response directly when it arrives.
* `Queued` — the revision of `src/frontend/src/hooks/useGame.js` (second
  document) that additionally holds a `queuedResponse` field.

React `useState` setters are embedded as field updates on an explicit state
record.  A subtlety of the source is modelled faithfully: an `async` handler
reads the state values captured by its closure at invocation time, not the
current state.  Functions that may run after an `await` therefore receive
both the closure state (`cl`) and the current state (`s`).

The reveal scheduler `AnimatedText` (`src/unnamed/part_002`) is embedded in
namespace `Reveal` as a step machine over tick/cancel events.
-/

/-- A choice as delivered by the narrative backend
(`choice_description`, `confirming_sentence`, `outcome`). -/
structure Choice where
  choice_description : String
  confirming_sentence : String
  outcome : String
deriving DecidableEq, Repr

/-- The `current_round` object of a backend response. -/
structure RoundData where
  situation : String
  choices : List Choice
deriving DecidableEq, Repr

/-- The backend response shape consumed by the `Serial` and `Queued`
revisions: `current_round` may be absent, and `end_game_threshold` may be
absent (JS `undefined`). -/
structure ApiData where
  current_round : Option RoundData
  narrative_context : String
  game_over : Bool
  score : Int
  end_game_threshold : Option Int
deriving DecidableEq, Repr

/-- The response shape consumed by the `Staged` revision:
`{ situation, choices }`. -/
structure NarrativeResult where
  situation : String
  choices : List Choice
deriving DecidableEq, Repr

/-- The staged request payload built by the `Staged` revision's
`chooseOption` (`submitNarrativeRequest` body). -/
structure Payload where
  stage : String
  narrative_context : String
  action : String
  outcome_value : Int
  action_confirming_sentence : String
deriving DecidableEq, Repr

/-- Embedding of the JS expression `data.end_game_threshold || 5`:
an absent field or the falsy value `0` yields the default `5`. -/
def orFive : Option Int → Int
  | none => 5
  | some t => if t = 0 then 5 else t

/-- Embedding of JS `s.substring(n)`: drop the first `n` characters.
Implemented on the character list so that it computes by structural
recursion. -/
def jsSubstring (s : String) (n : Nat) : String :=
  String.mk (s.data.drop n)

/-- Embedding of JS `s.trim()`: strip leading and trailing whitespace.
Implemented on the character list so that it computes by structural
recursion. -/
def jsTrim (s : String) : String :=
  String.mk
    (((s.data.dropWhile Char.isWhitespace).reverse.dropWhile
      Char.isWhitespace).reverse)

namespace Staged

/-- Hook state of the `Staged` revision (useGame.js, first document).
`endGameThreshold` is declared there with `useState(5)` and no setter. -/
structure GameState where
  hasStarted : Bool
  immediateNarrative : String
  animatedSegment : String
  choices : List Choice
  score : Int
  endGameThreshold : Int
  gameOver : Bool
  animationInProgress : Bool
  textAnimationComplete : Bool
deriving DecidableEq, Repr

/-- Initial hook state (the `useState` initial values). -/
def initState (initialMessage : String) : GameState :=
  { hasStarted := false
    immediateNarrative := initialMessage
    animatedSegment := ""
    choices := []
    score := 0
    endGameThreshold := 5
    gameOver := false
    animationInProgress := false
    textAnimationComplete := false }

/-- `outcome === "positive" ? score + 1 : score - 1`. -/
def newScore (s : GameState) (outcome : String) : Int :=
  if outcome == "positive" then s.score + 1 else s.score - 1

/-- The request body sent by `chooseOption`: always stage `"round"`, with
the narrative context, the found choice's description and confirming
sentence (empty strings when no choice matches, per `|| {}` and `|| ""`),
and outcome value `+1`/`-1`. -/
def chooseOptionPayload (s : GameState) (outcome : String) : Payload :=
  let selectedChoice := s.choices.find? (fun c => c.outcome == outcome)
  { stage := "round"
    narrative_context := s.immediateNarrative ++ "\n" ++ s.animatedSegment
    action :=
      match selectedChoice with
      | some c => c.choice_description
      | none => ""
    outcome_value := if outcome == "positive" then 1 else -1
    action_confirming_sentence :=
      match selectedChoice with
      | some c => c.confirming_sentence
      | none => "" }

/-- The state transition of `chooseOption` on a successful round trip:
score adjusted up front, then on response arrival the animated segment is
committed to the narrative, the new situation and choices installed, and
`gameOver` set when `Math.abs(newScore) >= endGameThreshold`. -/
def chooseOption (s : GameState) (outcome : String) (result : NarrativeResult) :
    GameState :=
  let ns := newScore s outcome
  { s with
    score := ns
    immediateNarrative := s.immediateNarrative ++ "\n" ++ s.animatedSegment
    animatedSegment := result.situation
    choices := result.choices
    textAnimationComplete := false
    animationInProgress := true
    gameOver :=
      if s.endGameThreshold ≤ (ns.natAbs : Int) then true else s.gameOver }

/-- Folding a sequence of successful choice rounds over a state. -/
def playAll (s : GameState) (moves : List (String × NarrativeResult)) :
    GameState :=
  moves.foldl (fun st mv => chooseOption st mv.1 mv.2) s

/-- Number of positive choices in a sequence of rounds. -/
def countPos (moves : List (String × NarrativeResult)) : Nat :=
  moves.countP (fun mv => mv.1 == "positive")

/-- Number of negative choices in a sequence of rounds. -/
def countNeg (moves : List (String × NarrativeResult)) : Nat :=
  moves.countP (fun mv => mv.1 == "negative")

end Staged

namespace Serial

/-- Hook state of the `Serial` revision (`src/unnamed/part_000`). -/
structure GameState where
  hasStarted : Bool
  immediateNarrative : String
  animatedSegment : String
  choices : List Choice
  score : Int
  endGameThreshold : Int
  gameOver : Bool
  animationInProgress : Bool
  textAnimationComplete : Bool
deriving DecidableEq, Repr

/-- Initial hook state. -/
def initState (initialMessage : String) : GameState :=
  { hasStarted := false
    immediateNarrative := initialMessage
    animatedSegment := ""
    choices := []
    score := 0
    endGameThreshold := 5
    gameOver := false
    animationInProgress := false
    textAnimationComplete := false }

/-- `handleResponse` of `part_000`.  `sh` is the choice permutation.
Modelled from the spec: `shuffleArray` (`src/utils/shuffle` is not under
`src/`) is "a pure function shuffle(choices, seed)"; it is passed here as an
arbitrary function parameter.  The branch condition embeds the JS truthiness
test `data.current_round && data.current_round.situation`; the fallback uses
`narrative_context.substring(immediateNarrative.length).trim()`. -/
def handleResponse (sh : List Choice → List Choice) (s : GameState)
    (data : ApiData) : GameState :=
  let fallback :=
    (jsTrim (jsSubstring data.narrative_context s.immediateNarrative.length)) ++
      "\n"
  let animSeg :=
    match data.current_round with
    | some r =>
      if r.situation == "" then fallback else jsTrim r.situation ++ "\n"
    | none => fallback
  { s with
    animatedSegment := animSeg
    choices :=
      match data.current_round with
      | some r => sh r.choices
      | none => []
    gameOver := data.game_over
    score := data.score
    endGameThreshold := orFive data.end_game_threshold
    animationInProgress := true
    textAnimationComplete := false }

/-- The synchronous part of `startGame`: `setHasStarted(true)` before the
request is issued. -/
def startGameSync (s : GameState) : GameState :=
  { s with hasStarted := true }

/-- `startGame` success continuation: process the response, and report
(second component) whether the 2-second auto-trigger of
`chooseOption("positive")` was scheduled (`!data.current_round`). -/
def startGameOnSuccess (sh : List Choice → List Choice) (s : GameState)
    (data : ApiData) : GameState × Bool :=
  (handleResponse sh s data, data.current_round.isNone)

/-- `startGame` failure continuation: the catch block only logs and clears
`animationInProgress`; `hasStarted` is left as it is. -/
def startGameOnError (s : GameState) : GameState :=
  { s with animationInProgress := false }

/-- The synchronous part of `chooseOption` in `part_000`: guard on
`animationInProgress`, look up the choice (silent return when absent), set
the confirmation text as the animated segment, clear the choices, raise the
animation flags.  The second component is the request sent to the backend
(`none` when the invocation returned without sending). -/
def chooseOptionSync (s : GameState) (choiceOutcome : String) :
    GameState × Option String :=
  if s.animationInProgress then (s, none)
  else
    match s.choices.find? (fun c => c.outcome == choiceOutcome) with
    | none => (s, none)
    | some selectedChoice =>
      ({ s with
          animatedSegment :=
            "\n" ++ "DECISION MADE: " ++ selectedChoice.choice_description ++
              "\n\n" ++ selectedChoice.confirming_sentence ++ "\n"
          choices := []
          animationInProgress := true
          textAnimationComplete := false },
        some choiceOutcome)

/-- `handleAnimationComplete` of `part_000`: commit the animated segment to
the immediate narrative (JS truthiness on the empty segment) and drop the
animation flags. -/
def handleAnimationComplete (s : GameState) : GameState :=
  { s with
    immediateNarrative :=
      s.immediateNarrative ++
        (if s.animatedSegment == "" then "" else "\n" ++ s.animatedSegment) ++
        "\n"
    animatedSegment := ""
    textAnimationComplete := true
    animationInProgress := false }

/-- `resetGame` of `part_000`: restores eight fields; `endGameThreshold`
is not among them. -/
def resetGame (initialMessage : String) (s : GameState) : GameState :=
  { s with
    immediateNarrative := initialMessage
    animatedSegment := ""
    choices := []
    gameOver := false
    animationInProgress := false
    textAnimationComplete := false
    score := 0
    hasStarted := false }

end Serial

namespace Queued

/-- Hook state of the `Queued` revision (useGame.js, second document),
with the `queuedResponse` field. -/
structure GameState where
  hasStarted : Bool
  immediateNarrative : String
  animatedSegment : String
  choices : List Choice
  score : Int
  endGameThreshold : Int
  gameOver : Bool
  animationInProgress : Bool
  textAnimationComplete : Bool
  queuedResponse : Option ApiData
deriving DecidableEq, Repr

/-- Initial hook state. -/
def initState (initialMessage : String) : GameState :=
  { hasStarted := false
    immediateNarrative := initialMessage
    animatedSegment := ""
    choices := []
    score := 0
    endGameThreshold := 5
    gameOver := false
    animationInProgress := false
    textAnimationComplete := false
    queuedResponse := none }

/-- `handleResponse` of the `Queued` revision.  It dereferences
`data.current_round.situation` unconditionally (line 194), so a response
without `current_round` throws: embedded as `none`.  The new segment is
appended to the animated segment.  `sh` is the choice permutation (see
`Serial.handleResponse` on the missing shuffle source). -/
def handleResponse (sh : List Choice → List Choice) (s : GameState)
    (data : ApiData) : Option GameState :=
  match data.current_round with
  | none => none
  | some rd =>
    some
      { s with
        animatedSegment := s.animatedSegment ++ (rd.situation ++ "\n")
        choices := sh rd.choices
        gameOver := data.game_over
        score := data.score
        endGameThreshold := orFive data.end_game_threshold
        animationInProgress := true
        textAnimationComplete := false }

/-- The synchronous part of `startGame`: `setHasStarted(true)`. -/
def startGameSync (s : GameState) : GameState :=
  { s with hasStarted := true }

/-- The synchronous part of `chooseOption` in the `Queued` revision:
guard, lookup, append the confirmation text to the animated segment, clear
the choices, raise the animation flags.  Second component: the request sent
(`none` when the invocation returned without sending). -/
def chooseOptionSync (s : GameState) (choiceOutcome : String) :
    GameState × Option String :=
  if s.animationInProgress then (s, none)
  else
    match s.choices.find? (fun c => c.outcome == choiceOutcome) with
    | none => (s, none)
    | some selectedChoice =>
      ({ s with
          animatedSegment :=
            s.animatedSegment ++
              ("\n" ++ "DECISION MADE: " ++ selectedChoice.choice_description ++
                "\n\n" ++ selectedChoice.confirming_sentence ++ "\n\n")
          choices := []
          animationInProgress := true
          textAnimationComplete := false },
        some choiceOutcome)

/-- Response arrival inside `chooseOption` (after the `await`).  The test
`if (animationInProgress)` reads the value captured by the invocation's
closure (`cl`), not the current state (`s`): when it is `true` the response
is stored in `queuedResponse`, otherwise `handleResponse` runs against the
current state. -/
def chooseOptionOnResponse (sh : List Choice → List Choice)
    (cl s : GameState) (data : ApiData) : Option GameState :=
  if cl.animationInProgress then some { s with queuedResponse := some data }
  else handleResponse sh s data

/-- `chooseOption` failure continuation: clear `animationInProgress`. -/
def chooseOptionOnError (s : GameState) : GameState :=
  { s with animationInProgress := false }

/-- `handleAnimationComplete` of the `Queued` revision: commit the animated
segment, drop the flags, then process a queued response if one exists. -/
def handleAnimationComplete (sh : List Choice → List Choice)
    (s : GameState) : Option GameState :=
  let s1 :=
    { s with
      immediateNarrative := s.immediateNarrative ++ s.animatedSegment
      animatedSegment := ""
      textAnimationComplete := true
      animationInProgress := false }
  match s1.queuedResponse with
  | none => some s1
  | some data => handleResponse sh { s1 with queuedResponse := none } data

/-- `resetGame` of the `Queued` revision: restores eight fields;
`endGameThreshold` and `queuedResponse` are not among them. -/
def resetGame (initialMessage : String) (s : GameState) : GameState :=
  { s with
    immediateNarrative := initialMessage
    animatedSegment := ""
    choices := []
    gameOver := false
    animationInProgress := false
    textAnimationComplete := false
    score := 0
    hasStarted := false }

end Queued

namespace Reveal

/-- External events of one `AnimatedText` run: a scheduled `setTimeout`
callback firing (`tick`) or the effect cleanup setting the cancellation
flag (`cancel`). -/
inductive Event where
  | tick
  | cancel
deriving DecidableEq, Repr

/-- State of one `AnimatedText` run: the disclosed characters, the cursor
`index`, the `isCancelled` ref, whether a timeout is scheduled (`pending`),
and how many times `onComplete` has been invoked. -/
structure RState where
  displayed : List Char
  index : Nat
  cancelled : Bool
  pending : Bool
  completions : Nat
deriving DecidableEq, Repr

/-- The body of `animate`: return at once when cancelled; otherwise either
disclose one more character and schedule the next call, or invoke
`onComplete`. -/
def animate (text : List Char) (s : RState) : RState :=
  if s.cancelled then { s with pending := false }
  else if s.index < text.length then
    { s with
      displayed := text.take (s.index + 1)
      index := s.index + 1
      pending := true }
  else { s with completions := s.completions + 1, pending := false }

/-- One external event: a pending timeout fires `animate` (consuming the
pending slot); the cleanup sets `isCancelled.current = true`. -/
def step (text : List Char) (s : RState) : Event → RState
  | Event.tick => if s.pending then animate text { s with pending := false } else s
  | Event.cancel => { s with cancelled := true }

/-- Effect start: fresh flags and the synchronous first `animate()` call. -/
def initR (text : List Char) : RState :=
  animate text
    { displayed := [], index := 0, cancelled := false, pending := false,
      completions := 0 }

/-- A run of the scheduler: the effect start followed by a sequence of
external events. -/
def run (text : List Char) (es : List Event) : RState :=
  es.foldl (step text) (initR text)

end Reveal

/-- Concrete positive choice for the C1 scenario. -/
def c1Choice : Choice :=
  { choice_description := "go", confirming_sentence := "You go.",
    outcome := "positive" }

/-- Concrete follow-up choice for the C1 scenario. -/
def c1Next : Choice :=
  { choice_description := "left", confirming_sentence := "You turn.",
    outcome := "negative" }

/-- C1 scenario: state when the player is offered a choice. -/
def c1S0 : Queued.GameState :=
  { Queued.initState "R" with
    hasStarted := true
    immediateNarrative := "R\nA\n"
    choices := [c1Choice]
    textAnimationComplete := true }

/-- C1 scenario: state right after the synchronous part of `chooseOption`,
while the confirmation segment is revealing. -/
def c1S1 : Queued.GameState := (Queued.chooseOptionSync c1S0 "positive").1

/-- C1 scenario: the backend response that arrives mid-reveal. -/
def c1Data : ApiData :=
  { current_round := some { situation := "B", choices := [c1Next] }
    narrative_context := ""
    game_over := false
    score := 1
    end_game_threshold := some 5 }

/-- Concrete positive choice for the C4 scenario. -/
def c4Choice : Choice :=
  { choice_description := "enter", confirming_sentence := "You enter.",
    outcome := "positive" }

/-- C4 scenario: a state one positive choice away from the threshold. -/
def c4S : Staged.GameState :=
  { Staged.initState "N" with
    hasStarted := true
    animatedSegment := "A"
    choices := [c4Choice]
    score := 4
    textAnimationComplete := true }

/-- Concrete positive choice for the C5 scenario. -/
def c5Choice : Choice :=
  { choice_description := "go", confirming_sentence := "You go.",
    outcome := "positive" }

/-- C5 scenario: a start response carrying `end_game_threshold = 7`. -/
def c5Data : ApiData :=
  { current_round := some { situation := "A", choices := [c5Choice] }
    narrative_context := ""
    game_over := false
    score := 0
    end_game_threshold := some 7 }

/-- C5 scenario: the session state after that start response. -/
def c5S : Queued.GameState :=
  { Queued.initState "R" with
    hasStarted := true
    animatedSegment := "A\n"
    choices := [c5Choice]
    endGameThreshold := 7
    animationInProgress := true }

/-- Concrete positive choice for the C6 scenario. -/
def c6Choice : Choice :=
  { choice_description := "go", confirming_sentence := "You go.",
    outcome := "positive" }

/-- Concrete follow-up choice for the C6 scenario. -/
def c6Next : Choice :=
  { choice_description := "left", confirming_sentence := "You turn.",
    outcome := "negative" }

/-- C6 scenario: state when the player is offered a choice. -/
def c6S0 : Queued.GameState :=
  { Queued.initState "R" with
    hasStarted := true
    immediateNarrative := "R\nA\n"
    choices := [c6Choice]
    textAnimationComplete := true }

/-- C6 scenario: state after the synchronous part of `chooseOption`
(request in flight) and before the reset. -/
def c6S1 : Queued.GameState := (Queued.chooseOptionSync c6S0 "positive").1

/-- C6 scenario: the pre-reset response that arrives after the reset. -/
def c6Data : ApiData :=
  { current_round := some { situation := "B", choices := [c6Next] }
    narrative_context := ""
    game_over := false
    score := 1
    end_game_threshold := some 5 }

/-- C6 scenario: the state the stale response produces out of the fresh
session. -/
def c6S3 : Queued.GameState :=
  { Queued.initState "R" with
    animatedSegment := "B\n"
    choices := [c6Next]
    score := 1
    animationInProgress := true }

/-- C7 scenario: the session after the Follow press and a failing initial
request. -/
def c7S : Serial.GameState :=
  Serial.startGameOnError (Serial.startGameSync (Serial.initState "R"))

/-- C10 scenario: a start response without round data. -/
def c10Data : ApiData :=
  { current_round := none
    narrative_context := "RMORE"
    game_over := false
    score := 0
    end_game_threshold := none }

/-- C10 scenario: session state after the round-less start response. -/
def c10S2 : Serial.GameState :=
  (Serial.startGameOnSuccess id (Serial.startGameSync (Serial.initState "R"))
    c10Data).1

/-- C10 scenario: session state once the reveal of that response's text has
completed. -/
def c10S3 : Serial.GameState := Serial.handleAnimationComplete c10S2

/-- Concrete result for the C2 witness. -/
def c2R : NarrativeResult := { situation := "S", choices := [] }

/-- Concrete positive choice for the C3 witness. -/
def c3Choice : Choice :=
  { choice_description := "go", confirming_sentence := "You go.",
    outcome := "positive" }

/-- C3 witness state for the `Queued` revision. -/
def c3QS : Queued.GameState :=
  { Queued.initState "R" with
    hasStarted := true
    choices := [c3Choice]
    textAnimationComplete := true }

/-- C3 witness state for the `Serial` revision. -/
def c3SS : Serial.GameState :=
  { Serial.initState "R" with
    hasStarted := true
    choices := [c3Choice]
    textAnimationComplete := true }

/-- Concrete result for the C4 witness. -/
def c4R : NarrativeResult := { situation := "END", choices := [] }

/-- Concrete positive choice for the C8 witness. -/
def c8Choice : Choice :=
  { choice_description := "go", confirming_sentence := "You go.",
    outcome := "positive" }

/-- C8 witness state for the `Queued` revision: the only offered choice has
outcome "positive", so outcome "maybe" matches nothing. -/
def c8QS : Queued.GameState :=
  { Queued.initState "R" with
    hasStarted := true
    choices := [c8Choice]
    textAnimationComplete := true }

/-- C8 witness state for the `Serial` revision. -/
def c8SS : Serial.GameState :=
  { Serial.initState "R" with
    hasStarted := true
    choices := [c8Choice]
    textAnimationComplete := true }

/-- C1: in the `Queued` revision, a result that arrives while the
confirmation segment is still revealing is NOT held in `queuedResponse`:
the post-await check reads the closure's `animationInProgress` (necessarily
`false` for any sent request, or the guard would have returned), so
`handleResponse` applies the result immediately, while
`animationInProgress = true`, and the queue stays empty. -/
theorem c1_result_applied_during_reveal :
    (Queued.chooseOptionSync c1S0 "positive").2 = some "positive"
    ∧ c1S1.animationInProgress = true
    ∧ Queued.chooseOptionOnResponse id c1S0 c1S1 c1Data =
        Queued.handleResponse id c1S1 c1Data
    ∧ (Queued.chooseOptionOnResponse id c1S0 c1S1 c1Data).map
        Queued.GameState.queuedResponse = some none
    ∧ (Queued.chooseOptionOnResponse id c1S0 c1S1 c1Data).map
        Queued.GameState.choices = some [c1Next] := by
  decide

/-- C4: counterexample to the claim that a request issued when the new
score meets the threshold has stage "final": at a concrete state with
score 4 and threshold 5, a positive choice yields `|new score| ≥ threshold`
yet the payload built by `chooseOption` has stage "round". -/
theorem c4_stage_final_counterexample :
    c4S.endGameThreshold ≤ ((Staged.newScore c4S "positive").natAbs : Int)
    ∧ (Staged.chooseOptionPayload c4S "positive").stage = "round"
    ∧ (Staged.chooseOptionPayload c4S "positive").stage ≠ "final" := by
  decide

/-- C5: `resetGame` does not restore `endGameThreshold` or
`queuedResponse`.  The state reached from a fresh session via a start
response carrying threshold 7 resets to a state with threshold 7, not to
the freshly constructed session (threshold 5); a queued response likewise
survives the reset. -/
theorem c5_reset_carryover_eval :
    Queued.handleResponse id (Queued.startGameSync (Queued.initState "R"))
        c5Data = some c5S
    ∧ (Queued.resetGame "R" c5S).endGameThreshold = 7
    ∧ (Queued.initState "R").endGameThreshold = 5
    ∧ Queued.resetGame "R" c5S ≠ Queued.initState "R"
    ∧ (Queued.resetGame "R"
        { c5S with queuedResponse := some c5Data }).queuedResponse =
        some c5Data := by
  decide

/-- C6: counterexample to the epoch-discard claim.  A request is sent, a
reset brings the session back to the fresh initial state, and when the
pre-reset response then arrives it is processed against the fresh session,
changing its segment, choices and score — it is not discarded. -/
theorem c6_stale_response_counterexample :
    (Queued.chooseOptionSync c6S0 "positive").2 = some "positive"
    ∧ Queued.resetGame "R" c6S1 = Queued.initState "R"
    ∧ Queued.chooseOptionOnResponse id c6S0 (Queued.initState "R") c6Data =
        some c6S3
    ∧ c6S3 ≠ Queued.initState "R"
    ∧ c6S3.score = 1 := by
  decide

/-- C7: counterexample to the claim that a failed `startGame` returns the
session to NotStarted: after the Follow press and a request failure,
`hasStarted` is still `true` and the state differs from the initial one. -/
theorem c7_start_failure_counterexample :
    c7S.hasStarted = true
    ∧ (Serial.initState "R").hasStarted = false
    ∧ c7S ≠ Serial.initState "R" := by
  decide

/-- C10: the auto-trigger scheduled after a round-less start response is a
no-op.  The response empties the choice list, so when the 2-second timer
invokes `chooseOption("positive")` the invocation returns without sending a
request or changing state — whether the reveal is still running (guard) or
already finished (empty-choices lookup). -/
theorem c10_auto_trigger_noop_eval :
    (Serial.startGameOnSuccess id (Serial.startGameSync (Serial.initState "R"))
        c10Data).2 = true
    ∧ c10S2.choices = []
    ∧ c10S2.animationInProgress = true
    ∧ Serial.chooseOptionSync c10S2 "positive" = (c10S2, none)
    ∧ c10S3.animationInProgress = false
    ∧ c10S3.choices = []
    ∧ Serial.chooseOptionSync c10S3 "positive" = (c10S3, none) := by
  decide

/-- C3: a second `chooseOption` invocation issued while a previous
submission's cycle is unresolved (the `animationInProgress` guard set by
the first invocation is still up) is a no-op in both guarded revisions: the
first invocation mutates the state and sends exactly one request, the
second returns the state unchanged and sends nothing. -/
theorem c3_duplicate_submission_noop (s : Queued.GameState)
    (t : Serial.GameState) (o o' p p' : String) (c d : Choice)
    (hs0 : s.animationInProgress = false)
    (hsf : s.choices.find? (fun x => x.outcome == o) = some c)
    (ht0 : t.animationInProgress = false)
    (htf : t.choices.find? (fun x => x.outcome == p) = some d) :
    ((Queued.chooseOptionSync s o).2 = some o
      ∧ ((Queued.chooseOptionSync s o).1).animationInProgress = true
      ∧ Queued.chooseOptionSync (Queued.chooseOptionSync s o).1 o' =
          ((Queued.chooseOptionSync s o).1, none))
    ∧ ((Serial.chooseOptionSync t p).2 = some p
      ∧ ((Serial.chooseOptionSync t p).1).animationInProgress = true
      ∧ Serial.chooseOptionSync (Serial.chooseOptionSync t p).1 p' =
          ((Serial.chooseOptionSync t p).1, none)) := by
  constructor
  · simp [Queued.chooseOptionSync, hs0, hsf]
  · simp [Serial.chooseOptionSync, ht0, htf]

/-- C3 witness: the duplicate-submission no-op at a concrete state. -/
theorem c3_duplicate_submission_noop_witness :
    ((Queued.chooseOptionSync c3QS "positive").2 = some "positive"
      ∧ ((Queued.chooseOptionSync c3QS "positive").1).animationInProgress = true
      ∧ Queued.chooseOptionSync
          (Queued.chooseOptionSync c3QS "positive").1 "negative" =
          ((Queued.chooseOptionSync c3QS "positive").1, none))
    ∧ ((Serial.chooseOptionSync c3SS "positive").2 = some "positive"
      ∧ ((Serial.chooseOptionSync c3SS "positive").1).animationInProgress = true
      ∧ Serial.chooseOptionSync
          (Serial.chooseOptionSync c3SS "positive").1 "negative" =
          ((Serial.chooseOptionSync c3SS "positive").1, none)) :=
  c3_duplicate_submission_noop c3QS c3SS "positive" "negative" "positive"
    "negative" c3Choice c3Choice rfl (by decide) rfl (by decide)

/-- C4 (amended): after the deterministic score update, the request sent by
`chooseOption` always has stage "round" and carries the narrative context,
the chosen action's description, its confirming sentence and the outcome
value `+1`/`-1` — there is no final-stage request; instead, when the
response arrives, `gameOver` is set exactly when the absolute value of the
new score is at least the threshold. -/
theorem c4_round_stage_always (s : Staged.GameState) (o : String) (c : Choice)
    (r : NarrativeResult)
    (hc : s.choices.find? (fun x => x.outcome == o) = some c) :
    Staged.chooseOptionPayload s o =
      { stage := "round"
        narrative_context := s.immediateNarrative ++ "\n" ++ s.animatedSegment
        action := c.choice_description
        outcome_value := if o == "positive" then 1 else -1
        action_confirming_sentence := c.confirming_sentence }
    ∧ (Staged.chooseOption s o r).score = Staged.newScore s o
    ∧ (Staged.chooseOption s o r).gameOver =
        (if s.endGameThreshold ≤ ((Staged.newScore s o).natAbs : Int) then true
          else s.gameOver) := by
  refine ⟨?_, rfl, rfl⟩
  simp [Staged.chooseOptionPayload, hc]

/-- C4 witness: the amended round-stage characterization at the concrete
threshold-reaching state. -/
theorem c4_round_stage_always_witness :
    Staged.chooseOptionPayload c4S "positive" =
      { stage := "round"
        narrative_context := c4S.immediateNarrative ++ "\n" ++ c4S.animatedSegment
        action := c4Choice.choice_description
        outcome_value := if "positive" == "positive" then 1 else -1
        action_confirming_sentence := c4Choice.confirming_sentence }
    ∧ (Staged.chooseOption c4S "positive" c4R).score =
        Staged.newScore c4S "positive"
    ∧ (Staged.chooseOption c4S "positive" c4R).gameOver =
        (if c4S.endGameThreshold ≤
            ((Staged.newScore c4S "positive").natAbs : Int) then true
          else c4S.gameOver) :=
  c4_round_stage_always c4S "positive" c4Choice c4R (by decide)

/-- C6 (amended): after a reset, a response belonging to a pre-reset
request is not discarded when it arrives: there is no epoch mechanism, and
since the request's closure necessarily captured `animationInProgress =
false`, the response is processed by `handleResponse` against the current
(post-reset) session, overwriting its segment, choices, score, threshold
and game-over flag. -/
theorem c6_stale_response_applied (sh : List Choice → List Choice)
    (cl s : Queued.GameState) (data : ApiData) (rd : RoundData)
    (hcl : cl.animationInProgress = false)
    (hrd : data.current_round = some rd) :
    Queued.chooseOptionOnResponse sh cl s data =
      some { s with
        animatedSegment := s.animatedSegment ++ (rd.situation ++ "\n")
        choices := sh rd.choices
        gameOver := data.game_over
        score := data.score
        endGameThreshold := orFive data.end_game_threshold
        animationInProgress := true
        textAnimationComplete := false } := by
  simp [Queued.chooseOptionOnResponse, Queued.handleResponse, hcl, hrd]

/-- C6 witness: the stale response is applied to the freshly reset
session. -/
theorem c6_stale_response_applied_witness :
    Queued.chooseOptionOnResponse id c6S0 (Queued.initState "R") c6Data =
      some { Queued.initState "R" with
        animatedSegment := (Queued.initState "R").animatedSegment ++ ("B" ++ "\n")
        choices := id [c6Next]
        gameOver := false
        score := 1
        endGameThreshold := orFive (some 5)
        animationInProgress := true
        textAnimationComplete := false } :=
  c6_stale_response_applied id c6S0 (Queued.initState "R") c6Data
    { situation := "B", choices := [c6Next] } rfl rfl

/-- C7 (amended): when the initial-stage request of `startGame` fails, the
error is only logged and the animation flag cleared; `hasStarted` remains
`true`, so the session is not returned to the NotStarted phase. -/
theorem c7_start_failure_behavior (s : Serial.GameState) :
    Serial.startGameOnError (Serial.startGameSync s) =
      { s with hasStarted := true, animationInProgress := false } := rfl

/-- C8: a `chooseOption` invocation whose outcome matches no current choice
is a silent no-op in both guarded revisions: the state is unchanged and no
request is sent. -/
theorem c8_invalid_outcome_noop (s : Queued.GameState) (t : Serial.GameState)
    (o p : String)
    (hq : s.choices.find? (fun c => c.outcome == o) = none)
    (hs : t.choices.find? (fun c => c.outcome == p) = none) :
    Queued.chooseOptionSync s o = (s, none)
    ∧ Serial.chooseOptionSync t p = (t, none) := by
  constructor
  · unfold Queued.chooseOptionSync
    by_cases h : s.animationInProgress
    · simp [h]
    · simp [h, hq]
  · unfold Serial.chooseOptionSync
    by_cases h : t.animationInProgress
    · simp [h]
    · simp [h, hs]

/-- C8 witness: outcome "maybe" matches no offered choice and the call is a
no-op. -/
theorem c8_invalid_outcome_noop_witness :
    Queued.chooseOptionSync c8QS "maybe" = (c8QS, none)
    ∧ Serial.chooseOptionSync c8SS "maybe" = (c8SS, none) :=
  c8_invalid_outcome_noop c8QS c8SS "maybe" "maybe" (by decide) (by decide)

/-- Unfolding lemma: playing a move sequence starting with `mv`. -/
theorem staged_playAll_cons (s : Staged.GameState)
    (mv : String × NarrativeResult) (moves : List (String × NarrativeResult)) :
    Staged.playAll s (mv :: moves) =
      Staged.playAll (Staged.chooseOption s mv.1 mv.2) moves := rfl

/-- The score after a sequence of successful rounds is the start score plus
positive count minus negative count. -/
theorem staged_playAll_score (moves : List (String × NarrativeResult)) :
    ∀ s : Staged.GameState,
    (∀ mv ∈ moves, mv.1 = "positive" ∨ mv.1 = "negative") →
    (Staged.playAll s moves).score =
      s.score + (Staged.countPos moves : Int) - (Staged.countNeg moves : Int) := by
  induction moves with
  | nil =>
    intro s _
    simp [Staged.playAll, Staged.countPos, Staged.countNeg]
  | cons mv rest ih =>
    intro s hv
    have hrest : ∀ m ∈ rest, m.1 = "positive" ∨ m.1 = "negative" :=
      fun m hm => hv m (List.mem_cons_of_mem _ hm)
    have hmv := hv mv (List.mem_cons_self _ _)
    rw [staged_playAll_cons, ih _ hrest]
    rcases hmv with h | h <;>
      simp [Staged.chooseOption, Staged.newScore, Staged.countPos,
        Staged.countNeg, List.countP_cons, h] <;>
      omega

/-- The game-over flag after a run that did not continue past a finished
game is set exactly when the final score's absolute value meets the
threshold. -/
theorem staged_playAll_gameOver (moves : List (String × NarrativeResult)) :
    ∀ s : Staged.GameState, s.gameOver = false →
    ((s.score.natAbs : Int) < s.endGameThreshold) →
    (∀ n, n < moves.length →
      (Staged.playAll s (moves.take n)).gameOver = false) →
    ((Staged.playAll s moves).gameOver = true ↔
      s.endGameThreshold ≤ (((Staged.playAll s moves).score).natAbs : Int)) := by
  induction moves with
  | nil =>
    intro s h0 h1 _
    simp only [Staged.playAll, List.foldl_nil, h0, Bool.false_eq_true,
      false_iff]
    omega
  | cons mv rest ih =>
    intro s h0 h1 hstop
    rw [staged_playAll_cons]
    cases rest with
    | nil =>
      have heq : (Staged.playAll (Staged.chooseOption s mv.1 mv.2) []).gameOver
          = (if s.endGameThreshold ≤ ((Staged.newScore s mv.1).natAbs : Int)
              then true else s.gameOver) := rfl
      have hsc : ((Staged.playAll (Staged.chooseOption s mv.1 mv.2) []).score)
          = Staged.newScore s mv.1 := rfl
      rw [heq, hsc]
      by_cases hc : s.endGameThreshold ≤ ((Staged.newScore s mv.1).natAbs : Int)
      · rw [if_pos hc]
        exact iff_of_true rfl hc
      · rw [if_neg hc, h0]
        exact iff_of_false (by simp) hc
    | cons r rs =>
      have hfirst : (Staged.chooseOption s mv.1 mv.2).gameOver = false := by
        have h2 := hstop 1 (by simp only [List.length_cons]; omega)
        simpa [Staged.playAll] using h2
      have h1' :
          (((Staged.chooseOption s mv.1 mv.2).score).natAbs : Int) <
            (Staged.chooseOption s mv.1 mv.2).endGameThreshold := by
        by_cases hc :
            s.endGameThreshold ≤ ((Staged.newScore s mv.1).natAbs : Int)
        · exfalso
          have ht : (Staged.chooseOption s mv.1 mv.2).gameOver = true := by
            rw [show (Staged.chooseOption s mv.1 mv.2).gameOver
                = (if s.endGameThreshold ≤
                    ((Staged.newScore s mv.1).natAbs : Int)
                  then true else s.gameOver) from rfl, if_pos hc]
          rw [ht] at hfirst
          simp at hfirst
        · push_neg at hc
          exact hc
      have hstop' : ∀ n, n < (r :: rs).length →
          (Staged.playAll (Staged.chooseOption s mv.1 mv.2)
            ((r :: rs).take n)).gameOver = false := by
        intro n hn
        have h2 := hstop (n + 1) (by simp only [List.length_cons] at hn ⊢; omega)
        simpa [Staged.playAll] using h2
      exact ih (Staged.chooseOption s mv.1 mv.2) hfirst h1' hstop'

/-- C2: for every sequence of successfully processed choice selections from
a state with score 0 and the game not over, where the run does not continue
past a finished game (no proper prefix has the game-over flag set), the
final score is the number of positive choices minus the number of negative
choices, and `gameOver` is set exactly when the absolute value of the final
score is at least the end-game threshold. -/
theorem c2_score_and_gameover (s0 : Staged.GameState)
    (moves : List (String × NarrativeResult))
    (hscore : s0.score = 0) (hgo : s0.gameOver = false)
    (hth : 0 < s0.endGameThreshold)
    (hv : ∀ mv ∈ moves, mv.1 = "positive" ∨ mv.1 = "negative")
    (hstop : ∀ n, n < moves.length →
      (Staged.playAll s0 (moves.take n)).gameOver = false) :
    (Staged.playAll s0 moves).score =
      (Staged.countPos moves : Int) - (Staged.countNeg moves : Int)
    ∧ ((Staged.playAll s0 moves).gameOver = true ↔
      s0.endGameThreshold ≤ (((Staged.playAll s0 moves).score).natAbs : Int)) := by
  constructor
  · rw [staged_playAll_score moves s0 hv, hscore]
    ring
  · apply staged_playAll_gameOver moves s0 hgo ?_ hstop
    rw [hscore]
    simpa using hth

/-- C2 witness: a single positive choice from the fresh session yields
score 1 and no game over (threshold 5). -/
theorem c2_score_and_gameover_witness :
    (Staged.playAll (Staged.initState "M") [("positive", c2R)]).score =
      (Staged.countPos [("positive", c2R)] : Int) -
        (Staged.countNeg [("positive", c2R)] : Int)
    ∧ ((Staged.playAll (Staged.initState "M") [("positive", c2R)]).gameOver =
        true ↔
      (Staged.initState "M").endGameThreshold ≤
        (((Staged.playAll (Staged.initState "M")
          [("positive", c2R)]).score).natAbs : Int)) :=
  c2_score_and_gameover (Staged.initState "M") [("positive", c2R)] rfl rfl
    (by decide) (by decide) (by decide)

/-- Once the cancellation flag is set, one further event changes neither
the disclosed text, the cursor, nor the completion count. -/
theorem reveal_step_cancelled (text : List Char) (s : Reveal.RState)
    (e : Reveal.Event) (h : s.cancelled = true) :
    (Reveal.step text s e).cancelled = true
    ∧ (Reveal.step text s e).displayed = s.displayed
    ∧ (Reveal.step text s e).index = s.index
    ∧ (Reveal.step text s e).completions = s.completions := by
  cases e with
  | tick =>
    by_cases hp : s.pending
    · simp [Reveal.step, hp, Reveal.animate, h]
    · simp [Reveal.step, hp, h]
  | cancel => simp [Reveal.step, h]

/-- Once the cancellation flag is set, any sequence of further events
changes neither the disclosed text, the cursor, nor the completion
count. -/
theorem reveal_foldl_cancelled (text : List Char) (es : List Reveal.Event) :
    ∀ s : Reveal.RState, s.cancelled = true →
    ((es.foldl (Reveal.step text) s).cancelled = true
    ∧ (es.foldl (Reveal.step text) s).displayed = s.displayed
    ∧ (es.foldl (Reveal.step text) s).index = s.index
    ∧ (es.foldl (Reveal.step text) s).completions = s.completions) := by
  induction es with
  | nil =>
    intro s h
    exact ⟨h, rfl, rfl, rfl⟩
  | cons e rest ih =>
    intro s h
    obtain ⟨hc, hd, hi, hco⟩ := reveal_step_cancelled text s e h
    obtain ⟨hc2, hd2, hi2, hco2⟩ := ih (Reveal.step text s e) hc
    simp only [List.foldl_cons]
    exact ⟨hc2, hd2.trans hd, hi2.trans hi, hco2.trans hco⟩

/-- One event preserves the completion-count invariant: `onComplete` has
run at most once, and after it has run no timeout is pending. -/
theorem reveal_step_compInv (text : List Char) (s : Reveal.RState)
    (e : Reveal.Event)
    (h1 : s.completions ≤ 1) (h2 : s.completions = 1 → s.pending = false) :
    (Reveal.step text s e).completions ≤ 1
    ∧ ((Reveal.step text s e).completions = 1 →
        (Reveal.step text s e).pending = false) := by
  cases e with
  | cancel => exact ⟨h1, h2⟩
  | tick =>
    by_cases hp : s.pending
    · have hc0 : s.completions = 0 := by
        by_cases hone : s.completions = 1
        · rw [h2 hone] at hp
          simp at hp
        · omega
      have hstep : Reveal.step text s Reveal.Event.tick =
          Reveal.animate text { s with pending := false } := by
        simp [Reveal.step, hp]
      rw [hstep]
      unfold Reveal.animate
      by_cases hcan : s.cancelled = true
      · rw [if_pos hcan]
        exact ⟨h1, fun _ => rfl⟩
      · rw [if_neg hcan]
        by_cases hidx : s.index < text.length
        · rw [if_pos hidx]
          refine ⟨h1, ?_⟩
          intro hone
          have hone2 : s.completions = 1 := hone
          exact absurd hone2 (by omega)
        · rw [if_neg hidx]
          refine ⟨?_, fun _ => rfl⟩
          show s.completions + 1 ≤ 1
          omega
    · have hstep : Reveal.step text s Reveal.Event.tick = s := by
        simp [Reveal.step, hp]
      rw [hstep]
      exact ⟨h1, h2⟩

/-- The completion-count invariant holds after the effect start. -/
theorem reveal_initR_compInv (text : List Char) :
    (Reveal.initR text).completions ≤ 1
    ∧ ((Reveal.initR text).completions = 1 →
        (Reveal.initR text).pending = false) := by
  unfold Reveal.initR Reveal.animate
  by_cases h : (0 : Nat) < text.length
  · simp [h]
  · simp [h]

/-- The completion-count invariant is preserved by any event sequence. -/
theorem reveal_foldl_compInv (text : List Char) (es : List Reveal.Event) :
    ∀ s : Reveal.RState,
    s.completions ≤ 1 → (s.completions = 1 → s.pending = false) →
    ((es.foldl (Reveal.step text) s).completions ≤ 1
    ∧ ((es.foldl (Reveal.step text) s).completions = 1 →
        (es.foldl (Reveal.step text) s).pending = false)) := by
  induction es with
  | nil =>
    intro s h1 h2
    exact ⟨h1, h2⟩
  | cons e rest ih =>
    intro s h1 h2
    obtain ⟨h1', h2'⟩ := reveal_step_compInv text s e h1 h2
    simp only [List.foldl_cons]
    exact ih (Reveal.step text s e) h1' h2'

/-- The disclosed text is always the prefix of the segment up to the
cursor, which never exceeds the segment length: `animate` case. -/
theorem reveal_animate_prefixInv (text : List Char) (s : Reveal.RState)
    (h1 : s.displayed = text.take s.index) (h2 : s.index ≤ text.length) :
    (Reveal.animate text s).displayed =
      text.take (Reveal.animate text s).index
    ∧ (Reveal.animate text s).index ≤ text.length := by
  unfold Reveal.animate
  by_cases hc : s.cancelled = true
  · rw [if_pos hc]
    exact ⟨h1, h2⟩
  · rw [if_neg hc]
    by_cases hi : s.index < text.length
    · rw [if_pos hi]
      refine ⟨rfl, ?_⟩
      show s.index + 1 ≤ text.length
      omega
    · rw [if_neg hi]
      exact ⟨h1, h2⟩

/-- The disclosed text is always the prefix of the segment up to the
cursor: single event case. -/
theorem reveal_step_prefixInv (text : List Char) (s : Reveal.RState)
    (e : Reveal.Event)
    (h1 : s.displayed = text.take s.index) (h2 : s.index ≤ text.length) :
    (Reveal.step text s e).displayed = text.take (Reveal.step text s e).index
    ∧ (Reveal.step text s e).index ≤ text.length := by
  cases e with
  | cancel => exact ⟨h1, h2⟩
  | tick =>
    by_cases hp : s.pending
    · have h3 :=
        reveal_animate_prefixInv text { s with pending := false } h1 h2
      simpa [Reveal.step, hp] using h3
    · simp only [Reveal.step, hp, if_false, Bool.false_eq_true, ite_false]
      exact ⟨h1, h2⟩

/-- One event never moves the cursor backwards. -/
theorem reveal_step_index_le (text : List Char) (s : Reveal.RState)
    (e : Reveal.Event) : s.index ≤ (Reveal.step text s e).index := by
  cases e with
  | cancel => exact Nat.le_refl _
  | tick =>
    by_cases hp : s.pending
    · by_cases hc : s.cancelled
      · simp [Reveal.step, hp, Reveal.animate, hc]
      · by_cases hi : s.index < text.length
        · simp [Reveal.step, hp, Reveal.animate, hc, hi]
        · simp [Reveal.step, hp, Reveal.animate, hc, hi]
    · simp [Reveal.step, hp]

/-- A sequence of events never moves the cursor backwards. -/
theorem reveal_foldl_index_le (text : List Char) (es : List Reveal.Event) :
    ∀ s : Reveal.RState, s.index ≤ (es.foldl (Reveal.step text) s).index := by
  induction es with
  | nil => intro s; exact Nat.le_refl _
  | cons e rest ih =>
    intro s
    simp only [List.foldl_cons]
    exact le_trans (reveal_step_index_le text s e) (ih (Reveal.step text s e))

/-- The prefix invariant is preserved by any event sequence. -/
theorem reveal_foldl_prefixInv (text : List Char) (es : List Reveal.Event) :
    ∀ s : Reveal.RState,
    s.displayed = text.take s.index → s.index ≤ text.length →
    ((es.foldl (Reveal.step text) s).displayed =
      text.take (es.foldl (Reveal.step text) s).index
    ∧ (es.foldl (Reveal.step text) s).index ≤ text.length) := by
  induction es with
  | nil =>
    intro s h1 h2
    exact ⟨h1, h2⟩
  | cons e rest ih =>
    intro s h1 h2
    obtain ⟨h1', h2'⟩ := reveal_step_prefixInv text s e h1 h2
    simp only [List.foldl_cons]
    exact ih (Reveal.step text s e) h1' h2'

/-- The prefix invariant holds after the effect start. -/
theorem reveal_initR_prefixInv (text : List Char) :
    (Reveal.initR text).displayed = text.take (Reveal.initR text).index
    ∧ (Reveal.initR text).index ≤ text.length :=
  reveal_animate_prefixInv text
    { displayed := [], index := 0, cancelled := false, pending := false,
      completions := 0 } rfl (Nat.zero_le _)

/-- The prefix invariant holds along every run. -/
theorem reveal_run_prefixInv (text : List Char) (es : List Reveal.Event) :
    (Reveal.run text es).displayed = text.take (Reveal.run text es).index
    ∧ (Reveal.run text es).index ≤ text.length :=
  reveal_foldl_prefixInv text es (Reveal.initR text)
    (reveal_initR_prefixInv text).1 (reveal_initR_prefixInv text).2

/-- A longer take of the same list extends a shorter one. -/
theorem reveal_take_mono (text : List Char) (i j : Nat) (h : i ≤ j) :
    ∃ u, text.take j = text.take i ++ u := by
  refine ⟨(text.take j).drop i, ?_⟩
  have h3 : (text.take j).take i = text.take i := by
    rw [List.take_take]
    congr 1
    omega
  calc text.take j
      = (text.take j).take i ++ (text.take j).drop i :=
        (List.take_append_drop i (text.take j)).symm
    _ = text.take i ++ (text.take j).drop i := by rw [h3]

/-- C9: safety of one `AnimatedText` run.  The disclosed text is always a
prefix of the segment (the take up to the cursor, which stays within
bounds); extending a run only grows the disclosed text; a `cancel` event
freezes the completion count and the cursor for the whole remainder of the
run (no further increments are performed and `onComplete` is never invoked
after cancellation); and `onComplete` runs at most once per run. -/
theorem c9_reveal_scheduler_safety (text : List Char)
    (e1 e2 : List Reveal.Event) :
    (Reveal.run text e1).displayed = text.take (Reveal.run text e1).index
    ∧ (Reveal.run text e1).index ≤ text.length
    ∧ (∃ u, (Reveal.run text (e1 ++ e2)).displayed =
        (Reveal.run text e1).displayed ++ u)
    ∧ (Reveal.run text (e1 ++ Reveal.Event.cancel :: e2)).completions =
        (Reveal.run text e1).completions
    ∧ (Reveal.run text (e1 ++ Reveal.Event.cancel :: e2)).index =
        (Reveal.run text e1).index
    ∧ (Reveal.run text (e1 ++ Reveal.Event.cancel :: e2)).cancelled = true
    ∧ (Reveal.run text e1).completions ≤ 1 := by
  obtain ⟨hp1, hl1⟩ := reveal_run_prefixInv text e1
  have hsplit2 : Reveal.run text (e1 ++ e2) =
      e2.foldl (Reveal.step text) (Reveal.run text e1) := by
    unfold Reveal.run
    rw [List.foldl_append]
  have hsplitc : Reveal.run text (e1 ++ Reveal.Event.cancel :: e2) =
      e2.foldl (Reveal.step text)
        (Reveal.step text (Reveal.run text e1) Reveal.Event.cancel) := by
    unfold Reveal.run
    rw [List.foldl_append]
    rfl
  obtain ⟨hfc, hfd, hfi, hfco⟩ :=
    reveal_foldl_cancelled text e2
      (Reveal.step text (Reveal.run text e1) Reveal.Event.cancel) rfl
  refine ⟨hp1, hl1, ?_, ?_, ?_, ?_, ?_⟩
  · obtain ⟨hp2, _⟩ := reveal_run_prefixInv text (e1 ++ e2)
    have hij : (Reveal.run text e1).index ≤ (Reveal.run text (e1 ++ e2)).index := by
      rw [hsplit2]
      exact reveal_foldl_index_le text e2 (Reveal.run text e1)
    obtain ⟨u, hu⟩ := reveal_take_mono text _ _ hij
    refine ⟨u, ?_⟩
    rw [hp2, hp1]
    exact hu
  · rw [hsplitc]
    exact hfco
  · rw [hsplitc]
    exact hfi
  · rw [hsplitc]
    exact hfc
  · exact
      (reveal_foldl_compInv text e1 (Reveal.initR text)
        (reveal_initR_compInv text).1 (reveal_initR_compInv text).2).1
